import Mathlib

/-!
Verification of the HTTP proxy (proxy.c): a shallow embedding of the
URI decomposer, the header relay, the client error writer and the
per-connection request handler, together with theorems checking the
stated behavioural properties of each component.

Modelling conventions: C strings are NUL-free Lean strings or lists of
characters; the robust I/O primitives are abstracted as environment
inputs (lines read from the client, byte chunks read from the origin,
and a list of success flags consumed one per write, where an exhausted
list means every further write succeeds); the handler returns a trace
recording which sockets were opened and closed, the bytes written to
the origin and to the client, and whether the parser was freed.
-/

namespace Proxy

/-- Maximum line length, MAXLINE in csapp.h (8192 bytes). -/
def MAXLINE : Nat := 8192

/-- Maximum buffer size, MAXBUF in csapp.h (8192 bytes). -/
def MAXBUF : Nat := 8192

/-- The fixed User-Agent header string header_user_agent sent to every origin. -/
def userAgentHeader : String :=
  "User-Agent: Mozilla/5.0 (X11; Linux x86_64; rv:3.10.0) Gecko/20240719 Firefox/63.0.1\r\n"

/-- The fixed Connection header line injected by the handler. -/
def connCloseLine : String := "Connection: close\r\n"

/-- The fixed Proxy-Connection header line injected by the handler. -/
def proxyConnCloseLine : String := "Proxy-Connection: close\r\n"

/-- Characters that stop the host scan of processUri: colon, slash, space. -/
def isHostDelim (c : Char) : Bool := c == ':' || c == '/' || c == ' '

/-- Characters that stop the port scan of processUri: slash, space. -/
def isPortDelim (c : Char) : Bool := c == '/' || c == ' '

/-- The first while loop of processUri: advance end while the current
character is not NUL, colon, slash or space; returns the scanned
characters and the remaining suffix (the final position of end). -/
def hostScan : List Char → List Char × List Char
  | [] => ([], [])
  | c :: cs =>
    if isHostDelim c then ([], c :: cs)
    else
      let r := hostScan cs
      (c :: r.1, r.2)

/-- The second while loop of processUri: advance end while the current
character is not NUL, slash or space; returns the scanned characters
and the remaining suffix. -/
def portScan : List Char → List Char × List Char
  | [] => ([], [])
  | c :: cs =>
    if isPortDelim c then ([], c :: cs)
    else
      let r := portScan cs
      (c :: r.1, r.2)

/-- Embedding of processUri from proxy.c. The input is the URI as a list
of characters; the first seven characters (the scheme) are skipped, the
host is scanned up to a colon, slash, space or end, then if the scan
stopped at a colon the port is the run after it up to a slash, space or
end (the port scan starts at the colon itself, which is not a stop
character, so it advances past it), else the port is the literal 80;
the path is the remaining suffix when it starts with a slash, else
empty. Returns (host, port, path). -/
def processUri (uri : List Char) : List Char × List Char × List Char :=
  let rest := uri.drop 7
  let hs := hostScan rest
  let pp : List Char × List Char :=
    if hs.2.head? = some ':' then
      let ps := portScan hs.2.tail
      (ps.1, ps.2)
    else (['8', '0'], hs.2)
  let path := if pp.2.head? = some '/' then pp.2 else []
  (hs.1, pp.1, path)

/-- Spec wording for the host component: the characters after the scheme
up to the first colon, slash, space, or end of string. -/
def specHost (rest : List Char) : List Char :=
  rest.takeWhile fun c => !isHostDelim c

/-- Spec wording for the suffix at which the host scan stops. -/
def specAfterHost (rest : List Char) : List Char :=
  rest.dropWhile fun c => !isHostDelim c

/-- Spec wording for the port component: the run of characters after a
colon up to a slash, space, or end when a colon terminates the host
scan, and the string 80 otherwise. -/
def specPort (rest : List Char) : List Char :=
  let after := specAfterHost rest
  if after.head? = some ':' then after.tail.takeWhile fun c => !isPortDelim c
  else ['8', '0']

/-- Spec wording for the path component: the suffix starting at the
slash, inclusive, when the scan stops at a slash, and empty otherwise. -/
def specPath (rest : List Char) : List Char :=
  let after := specAfterHost rest
  let after2 := if after.head? = some ':' then after.tail.dropWhile fun c => !isPortDelim c
    else after
  if after2.head? = some '/' then after2 else []

/-- Boolean test that the first list occurs at the start of the second,
the character-level reading of strncmp returning zero. -/
def leadsWith : List Char → List Char → Bool
  | [], _ => true
  | _ :: _, [] => false
  | a :: as, b :: bs => a == b && leadsWith as bs

/-- Boolean test that the first list occurs contiguously somewhere inside
the second. -/
def hasSub (needle : List Char) : List Char → Bool
  | [] => leadsWith needle []
  | c :: t => leadsWith needle (c :: t) || hasSub needle t

/-- The blacklist test of readLine: a case-sensitive prefix match against
the four dropped header names, as strncmp with the length of each name. -/
def isBlacklisted (l : String) : Bool :=
  leadsWith "Host:".data l.data || leadsWith "Connection:".data l.data ||
    leadsWith "User-Agent:".data l.data || leadsWith "Proxy-Connection:".data l.data

/-- One write through the abstract write-outcome list: pops the next
success flag; an exhausted list means the write succeeds. -/
def doWrite : List Bool → Bool × List Bool
  | [] => (true, [])
  | b :: bs => (b, bs)

/-- Embedding of readLine from proxy.c. The input is the sequence of
lines successfully read from the client (the first argument of the C
function plus the later reads; an empty list models an end of input,
where rio_readlineb returns zero) and the origin write outcomes.
Returns the lines written to the origin, the remaining write outcomes
and the success flag; on a failed write the C function closes the
origin socket and returns false. -/
def readLine : List String → List Bool → List String × List Bool × Bool
  | [], ow => ([], ow, true)
  | l :: ls, ow =>
    if l == "\r\n" then ([], ow, true)
    else if isBlacklisted l then readLine ls ow
    else
      let w := doWrite ow
      if w.1 then
        let r := readLine ls w.2
        (l :: r.1, r.2.1, r.2.2)
      else ([], w.2, false)

/-- A sequence of writes that stops at the first failure, modelling the
short-circuit chain of rio_writen calls for the injected headers.
Returns the strings written, the remaining outcomes and the success
flag. -/
def writeSeq : List String → List Bool → List String × List Bool × Bool
  | [], ow => ([], ow, true)
  | s :: ss, ow =>
    let w := doWrite ow
    if w.1 then
      let r := writeSeq ss w.2
      (s :: r.1, r.2.1, r.2.2)
    else ([], w.2, false)

/-- Embedding of the response relay loop of request: each chunk read from
the origin is written to the client; a failed client write stops the
loop before any further chunk is read. Returns the chunks delivered to
the client and the remaining client write outcomes. -/
def relay : List (List Nat) → List Bool → List (List Nat) × List Bool
  | [], cw => ([], cw)
  | c :: cs, cw =>
    let w := doWrite cw
    if w.1 then
      let r := relay cs w.2
      (c :: r.1, r.2)
    else ([], w.2)

/-- The HTML body built by clienterror. -/
def errorBody (errnum shortmsg longmsg : String) : String :=
  "<!DOCTYPE html>\r\n<html>\r\n<head><title>Tiny Error</title></head>\r\n" ++
    "<body bgcolor=\"ffffff\">\r\n<h1>" ++ errnum ++ ": " ++ shortmsg ++ "</h1>\r\n<p>" ++
    longmsg ++ "</p>\r\n<hr /><em>The Tiny Web server</em>\r\n</body></html>\r\n"

/-- The response header block built by clienterror, with the Content-Length
value equal to the formatted body length. -/
def errorHeader (errnum shortmsg : String) (bodylen : Nat) : String :=
  "HTTP/1.0 " ++ errnum ++ " " ++ shortmsg ++
    "\r\nContent-Type: text/html\r\nContent-Length: " ++ toString bodylen ++ "\r\n\r\n"

/-- Embedding of clienterror from proxy.c: builds the body and the header
block, returns without writing when either formatted length reaches its
buffer bound, then writes the header block and the body, stopping at a
failed write. Returns the strings written to the client. -/
def clienterror (errnum shortmsg longmsg : String) (cwOk : List Bool) : List String :=
  let body := errorBody errnum shortmsg longmsg
  if MAXBUF ≤ body.length then []
  else
    let hdr := errorHeader errnum shortmsg body.length
    if MAXLINE ≤ hdr.length then []
    else
      let w1 := doWrite cwOk
      if w1.1 then
        let w2 := doWrite w1.2
        if w2.1 then [hdr, body] else [hdr]
      else []

/-- Environment of one connection: the abstracted results of the external
collaborators (the robust I/O package, the request-line parser and the
connect call) during one run of request. -/
structure Env where
  firstReadOk : Bool
  parsedRequest : Bool
  retrieveOk : Bool
  method : String
  uri : String
  connectOk : Bool
  clientLines : List String
  owOk : List Bool
  cwOk : List Bool
  originChunks : List (List Nat)

/-- Observable trace of one run of request: whether the origin socket was
opened and closed, whether the parser was freed, the strings written to
the origin, the strings written to the client by clienterror and the
response chunks relayed to the client. -/
structure Trace where
  originOpened : Bool
  originClosed : Bool
  parserFreed : Bool
  originWrites : List String
  clientWrites : List String
  relayed : List (List Nat)

/-- The part of request that runs after open_clientfd succeeds. Each exit
records the cleanup actions of the corresponding C path: every early
return past this point calls cleanUp, which closes the origin socket and
frees the parser, except the readLine failure path, where readLine
itself closes the origin socket and request frees the parser. The
request line is written even when its formatted length reached MAXLINE,
in which case the truncated buffer contents are sent before the abort. -/
def handleConnected (host port path : String) (clientLines : List String)
    (owOk cwOk : List Bool) (chunks : List (List Nat)) : Trace :=
  let reqFull := "GET " ++ path ++ " HTTP/1.0\r\n"
  let reqLine := if MAXLINE ≤ reqFull.length then reqFull.take (MAXLINE - 1) else reqFull
  let w1 := doWrite owOk
  let ws1 : List String := if w1.1 then [reqLine] else []
  if MAXLINE ≤ reqFull.length ∨ w1.1 = false then
    ⟨true, true, true, ws1, [], []⟩
  else
    let hostLine := "Host: " ++ host ++ ":" ++ port ++ "\r\n"
    if MAXLINE ≤ hostLine.length then
      ⟨true, true, true, ws1, [], []⟩
    else
      let inj := writeSeq [hostLine, userAgentHeader, connCloseLine, proxyConnCloseLine] w1.2
      if inj.2.2 = false then
        ⟨true, true, true, ws1 ++ inj.1, [], []⟩
      else
        let hr := readLine clientLines inj.2.1
        if hr.2.2 = false then
          ⟨true, true, true, ws1 ++ inj.1 ++ hr.1, [], []⟩
        else
          let wt := doWrite hr.2.1
          if wt.1 = false then
            ⟨true, true, true, ws1 ++ inj.1 ++ hr.1, [], []⟩
          else
            let rl := relay chunks cwOk
            ⟨true, true, true, ws1 ++ inj.1 ++ hr.1 ++ ["\r\n"], [], rl.1⟩

/-- Embedding of request from proxy.c: the early returns before the origin
connection (empty first read, request line that does not parse, failed
retrieval, non-GET method with the 501 client error, failed connect)
free the parser and touch no origin socket; a GET with a successful
connect runs the connected phase on the decomposed URI. -/
def request (e : Env) : Trace :=
  if e.firstReadOk = false then ⟨false, false, true, [], [], []⟩
  else if e.parsedRequest = false then ⟨false, false, true, [], [], []⟩
  else if e.retrieveOk = false then ⟨false, false, true, [], [], []⟩
  else if e.method ≠ "GET" then
    ⟨false, false, true, [],
      clienterror "501" "Not Implemented" "Tiny does not implement this method" e.cwOk, []⟩
  else
    let d := processUri e.uri.data
    if e.connectOk = false then ⟨false, false, true, [], [], []⟩
    else
      handleConnected d.1.asString d.2.1.asString d.2.2.asString
        e.clientLines e.owOk e.cwOk e.originChunks

/-- The client header lines that the header relay forwards: the lines
before the bare terminator, with the blacklisted lines removed. -/
def relayedHeaders (ls : List String) : List String :=
  (ls.takeWhile fun l => !(l == "\r\n")).filter fun l => !isBlacklisted l

/-- Connection with one pass-through client header, used to exhibit the
order of the injected headers on the origin wire. -/
def envC3 : Env :=
  ⟨true, true, true, "GET", "http://h/p", true, ["Accept: x\r\n", "\r\n"], [], [], []⟩

/-- Successful GET connection with one pass-through and one blacklisted
client header. -/
def envC3w : Env :=
  ⟨true, true, true, "GET", "http://w/q", true, ["A: b\r\n", "Host: z\r\n", "\r\n"], [], [],
    [[1, 2]]⟩

/-- Connection presenting a POST request. -/
def envC4 : Env := ⟨true, true, true, "POST", "http://x/", false, [], [], [], []⟩

/-- Successful GET connection with two origin response chunks. -/
def envC5 : Env := ⟨true, true, true, "GET", "http://s:7/r", true, ["\r\n"], [], [], [[1], [2, 3]]⟩

/-- Successful GET connection whose URI has no path component. -/
def envC6 : Env := ⟨true, true, true, "GET", "http://h", true, ["\r\n"], [], [], []⟩

/-- Successful GET connection with an explicit port and path. -/
def envC6w : Env := ⟨true, true, true, "GET", "http://w:81/z", true, ["\r\n"], [], [], []⟩

/-- Successful GET connection used to observe resource release. -/
def envC7 : Env := ⟨true, true, true, "GET", "http://c/d", true, ["\r\n"], [], [], [[9]]⟩

/-- Connection whose very first read returns no data. -/
def envC8 : Env := ⟨false, true, true, "GET", "http://h/", true, [], [], [], []⟩

lemma hostScan_eq (l : List Char) :
    hostScan l = (l.takeWhile (fun c => !isHostDelim c), l.dropWhile (fun c => !isHostDelim c)) := by
  induction l with
  | nil => rfl
  | cons c cs ih =>
    by_cases h : isHostDelim c = true
    · simp [hostScan, h]
    · simp [hostScan, h, ih]

lemma portScan_eq (l : List Char) :
    portScan l = (l.takeWhile (fun c => !isPortDelim c), l.dropWhile (fun c => !isPortDelim c)) := by
  induction l with
  | nil => rfl
  | cons c cs ih =>
    by_cases h : isPortDelim c = true
    · simp [portScan, h]
    · simp [portScan, h, ih]

lemma processUri_eq_spec (rest : List Char) :
    processUri ("http://".data ++ rest) = (specHost rest, specPort rest, specPath rest) := by
  have hdrop : ("http://".data ++ rest).drop 7 = rest := List.drop_left' (by decide)
  simp only [processUri, hdrop, hostScan_eq, portScan_eq, specHost, specPort, specPath,
    specAfterHost]
  by_cases h : ((rest.dropWhile fun c => !isHostDelim c).head? = some ':')
  · simp [h]
  · simp [h]

lemma takeWhile_append_all {p : Char → Bool} (h r : List Char) (hh : ∀ c ∈ h, p c = true) :
    (h ++ r).takeWhile p = h ++ r.takeWhile p := by
  induction h with
  | nil => simp
  | cons a as ih =>
    have ha : p a = true := hh a (List.mem_cons_self a as)
    simp [ha, ih fun c hc => hh c (List.mem_cons_of_mem a hc)]

lemma dropWhile_append_all {p : Char → Bool} (h r : List Char) (hh : ∀ c ∈ h, p c = true) :
    (h ++ r).dropWhile p = r.dropWhile p := by
  induction h with
  | nil => simp
  | cons a as ih =>
    have ha : p a = true := hh a (List.mem_cons_self a as)
    simp [ha, ih fun c hc => hh c (List.mem_cons_of_mem a hc)]

lemma readLine_all (ls : List String) : readLine ls [] = (relayedHeaders ls, [], true) := by
  induction ls with
  | nil => rfl
  | cons l ls ih =>
    by_cases h1 : (l == "\r\n") = true
    · simp [readLine, h1, relayedHeaders]
    · by_cases h2 : isBlacklisted l = true
      · rw [show readLine (l :: ls) [] = readLine ls [] from by simp [readLine, h1, h2], ih]
        simp [relayedHeaders, h1, h2]
      · rw [show readLine (l :: ls) [] =
            (l :: (readLine ls []).1, (readLine ls []).2.1, (readLine ls []).2.2) from by
              simp [readLine, h1, h2, doWrite], ih]
        simp [relayedHeaders, h1, h2]

lemma readLine_blacklist_free (ls : List String) (ow : List Bool) :
    ((readLine ls ow).1.filter fun l => isBlacklisted l) = [] := by
  induction ls generalizing ow with
  | nil => rfl
  | cons l ls ih =>
    by_cases h1 : (l == "\r\n") = true
    · simp [readLine, h1]
    · by_cases h2 : isBlacklisted l = true
      · simp [readLine, h1, h2, ih]
      · by_cases h3 : (doWrite ow).1 = true
        · simp [readLine, h1, h2, h3, List.filter_cons, ih]
        · simp [readLine, h1, h2, h3]

lemma writeSeq_all (ss : List String) : writeSeq ss [] = (ss, [], true) := by
  induction ss with
  | nil => rfl
  | cons s ss ih => simp [writeSeq, doWrite, ih]

lemma relay_all (cs : List (List Nat)) : relay cs [] = (cs, []) := by
  induction cs with
  | nil => rfl
  | cons c cs ih => simp [relay, doWrite, ih]

lemma relay_stop (k : Nat) (cs : List (List Nat)) :
    (relay cs (List.replicate k true ++ [false])).1 = cs.take k := by
  induction k generalizing cs with
  | zero =>
    cases cs with
    | nil => rfl
    | cons c cs => simp [relay, doWrite]
  | succ k ih =>
    cases cs with
    | nil => rfl
    | cons c cs => simp [relay, doWrite, List.replicate_succ, ih]

lemma handleConnected_success (host port path : String) (ls : List String)
    (cw : List Bool) (cs : List (List Nat))
    (h7 : ¬ MAXLINE ≤ ("GET " ++ path ++ " HTTP/1.0\r\n").length)
    (h8 : ¬ MAXLINE ≤ ("Host: " ++ host ++ ":" ++ port ++ "\r\n").length) :
    handleConnected host port path ls [] cw cs =
      ⟨true, true, true,
        ("GET " ++ path ++ " HTTP/1.0\r\n") :: ("Host: " ++ host ++ ":" ++ port ++ "\r\n") ::
          userAgentHeader :: connCloseLine :: proxyConnCloseLine ::
          (relayedHeaders ls ++ ["\r\n"]),
        [], (relay cs cw).1⟩ := by
  have h7a := h7
  have h8a := h8
  simp only [String.length_append] at h7a h8a
  simp [handleConnected, doWrite, writeSeq_all, readLine_all, h7, h8, h7a, h8a]

lemma request_connected (e : Env) (h1 : e.firstReadOk = true) (h2 : e.parsedRequest = true)
    (h3 : e.retrieveOk = true) (h4 : e.method = "GET") (h5 : e.connectOk = true) :
    request e = handleConnected (processUri e.uri.data).1.asString
      (processUri e.uri.data).2.1.asString (processUri e.uri.data).2.2.asString
      e.clientLines e.owOk e.cwOk e.originChunks := by
  simp [request, h1, h2, h3, h4, h5]

lemma request_success (e : Env) (h1 : e.firstReadOk = true) (h2 : e.parsedRequest = true)
    (h3 : e.retrieveOk = true) (h4 : e.method = "GET") (h5 : e.connectOk = true)
    (h6 : e.owOk = [])
    (h7 : ¬ MAXLINE ≤ ("GET " ++ (processUri e.uri.data).2.2.asString ++ " HTTP/1.0\r\n").length)
    (h8 : ¬ MAXLINE ≤ ("Host: " ++ (processUri e.uri.data).1.asString ++ ":" ++
      (processUri e.uri.data).2.1.asString ++ "\r\n").length) :
    request e = ⟨true, true, true,
      ("GET " ++ (processUri e.uri.data).2.2.asString ++ " HTTP/1.0\r\n") ::
        ("Host: " ++ (processUri e.uri.data).1.asString ++ ":" ++
          (processUri e.uri.data).2.1.asString ++ "\r\n") ::
        userAgentHeader :: connCloseLine :: proxyConnCloseLine ::
        (relayedHeaders e.clientLines ++ ["\r\n"]),
      [], (relay e.originChunks e.cwOk).1⟩ := by
  rw [request_connected e h1 h2 h3 h4 h5, h6,
    handleConnected_success _ _ _ _ _ _ h7 h8]

lemma request_non_get (e : Env) (h1 : e.firstReadOk = true) (h2 : e.parsedRequest = true)
    (h3 : e.retrieveOk = true) (h4 : e.method ≠ "GET") :
    request e = ⟨false, false, true, [],
      clienterror "501" "Not Implemented" "Tiny does not implement this method" e.cwOk, []⟩ := by
  simp [request, h1, h2, h3, h4]

lemma handleConnected_closes (host port path : String) (ls : List String)
    (ow cw : List Bool) (cs : List (List Nat)) :
    (handleConnected host port path ls ow cw cs).originClosed = true ∧
      (handleConnected host port path ls ow cw cs).parserFreed = true := by
  simp only [handleConnected]
  repeat' split
  all_goals exact ⟨rfl, rfl⟩

lemma request_cases (e : Env) :
    (request e).originOpened = false ∨
      request e = handleConnected (processUri e.uri.data).1.asString
        (processUri e.uri.data).2.1.asString (processUri e.uri.data).2.2.asString
        e.clientLines e.owOk e.cwOk e.originChunks := by
  simp only [request]
  repeat' split
  all_goals first
    | exact Or.inl rfl
    | exact Or.inr rfl

lemma handleConnected_head (host port path : String) (ls : List String)
    (ow cw : List Bool) (cs : List (List Nat))
    (hw : (doWrite ow).1 = true)
    (hlen : ¬ MAXLINE ≤ ("GET " ++ path ++ " HTTP/1.0\r\n").length) :
    (handleConnected host port path ls ow cw cs).originWrites.head? =
      some ("GET " ++ path ++ " HTTP/1.0\r\n") := by
  simp only [handleConnected, hw, hlen]
  repeat' split
  all_goals simp_all

lemma handleConnected_overflow (host port path : String) (ls : List String)
    (ow cw : List Bool) (cs : List (List Nat))
    (hov : MAXLINE ≤ ("GET " ++ path ++ " HTTP/1.0\r\n").length) :
    handleConnected host port path ls ow cw cs =
      ⟨true, true, true,
        if (doWrite ow).1 then [("GET " ++ path ++ " HTTP/1.0\r\n").take (MAXLINE - 1)] else [],
        [], []⟩ := by
  have hova := hov
  simp only [String.length_append] at hova
  simp only [handleConnected]
  rw [if_pos (Or.inl hov)]
  simp [hov, hova]

lemma handleConnected_wfail (host port path : String) (ls : List String)
    (ow cw : List Bool) (cs : List (List Nat))
    (hwf : (doWrite ow).1 = false) :
    handleConnected host port path ls ow cw cs = ⟨true, true, true, [], [], []⟩ := by
  simp only [handleConnected]
  rw [if_pos (Or.inr hwf)]
  simp [hwf]

/-- C1: for every URI beginning with the literal prefix http://, processUri
returns as host the characters after the prefix up to the first colon, slash,
space, or end of string; as port the run of characters after a colon up to a
slash, space, or end when a colon terminates the host scan, and the string 80
otherwise; and as path the suffix starting at the slash, inclusive, when the
scan stops at a slash, and the empty string otherwise. -/
theorem processUri_decomposes_per_spec (rest : List Char) :
    processUri ("http://".data ++ rest) = (specHost rest, specPort rest, specPath rest) :=
  processUri_eq_spec rest

/-- C2: for every sequence of client header lines processed by readLine, a
line whose prefix is one of the four blacklisted header names is never
written to the origin, and every other non-terminator line is written to the
origin byte for byte, in its original relative order, until the bare
terminator line is seen or input ends. -/
theorem readLine_filters_blacklist (ls : List String) :
    (readLine ls []).1 = relayedHeaders ls ∧ (readLine ls []).2.2 = true ∧
      ∀ ow : List Bool, ((readLine ls ow).1.filter fun l => isBlacklisted l) = [] :=
  ⟨by rw [readLine_all], by rw [readLine_all], fun ow => readLine_blacklist_free ls ow⟩

set_option maxRecDepth 8192 in
/-- C3 counterexample: on a GET connection sending the single pass-through
header Accept, the origin receives the injected Host, User-Agent, Connection
and Proxy-Connection lines before the relayed client header, so the claim
that the injected headers are written after the client header lines have
been exhausted is false at this input. -/
theorem injected_headers_order_cex :
    (request envC3).originWrites =
      ["GET /p HTTP/1.0\r\n", "Host: h:80\r\n", userAgentHeader, connCloseLine,
        proxyConnCloseLine, "Accept: x\r\n", "\r\n"] ∧
      ¬ (request envC3).originWrites =
        ["GET /p HTTP/1.0\r\n", "Accept: x\r\n", "Host: h:80\r\n", userAgentHeader,
          connCloseLine, proxyConnCloseLine, "\r\n"] :=
  ⟨by decide, by decide⟩

/-- C3 corrected: for every successfully handled GET request the proxy writes
the injected headers to the origin before relaying the client header lines,
in the order Host, the fixed User-Agent line, Connection close,
Proxy-Connection close; only the blank terminator line is written after the
client header lines have been exhausted. -/
theorem injected_headers_before_client_headers (e : Env) (h1 : e.firstReadOk = true)
    (h2 : e.parsedRequest = true) (h3 : e.retrieveOk = true) (h4 : e.method = "GET")
    (h5 : e.connectOk = true) (h6 : e.owOk = [])
    (h7 : ¬ MAXLINE ≤ ("GET " ++ (processUri e.uri.data).2.2.asString ++ " HTTP/1.0\r\n").length)
    (h8 : ¬ MAXLINE ≤ ("Host: " ++ (processUri e.uri.data).1.asString ++ ":" ++
      (processUri e.uri.data).2.1.asString ++ "\r\n").length) :
    (request e).originWrites =
      ("GET " ++ (processUri e.uri.data).2.2.asString ++ " HTTP/1.0\r\n") ::
        ("Host: " ++ (processUri e.uri.data).1.asString ++ ":" ++
          (processUri e.uri.data).2.1.asString ++ "\r\n") ::
        userAgentHeader :: connCloseLine :: proxyConnCloseLine ::
        (relayedHeaders e.clientLines ++ ["\r\n"]) := by
  rw [request_success e h1 h2 h3 h4 h5 h6 h7 h8]

set_option maxRecDepth 8192 in
/-- Witness for the corrected C3 statement at a concrete connection. -/
theorem injected_headers_before_client_headers_witness :
    (request envC3w).originWrites =
      ["GET /q HTTP/1.0\r\n", "Host: w:80\r\n", userAgentHeader, connCloseLine,
        proxyConnCloseLine, "A: b\r\n", "\r\n"] :=
  (injected_headers_before_client_headers envC3w rfl rfl rfl rfl rfl rfl
    (by decide) (by decide)).trans (by decide)

/-- C4: for every request whose parsed method is any string other than GET,
the handler sends the client exactly one 501 response, a header block whose
status line is HTTP/1.0 501 Not Implemented with a Content-Type of text/html
and a Content-Length equal to the body length followed by a blank line, and a
body containing the h1 and p fragments of the error page; the handler then
returns without opening an origin connection or forwarding any bytes to any
origin. -/
theorem non_get_sends_501 (e : Env) (h1 : e.firstReadOk = true)
    (h2 : e.parsedRequest = true) (h3 : e.retrieveOk = true)
    (h4 : e.method ≠ "GET") (h5 : e.cwOk = []) :
    (request e).clientWrites =
      [errorHeader "501" "Not Implemented"
          (errorBody "501" "Not Implemented" "Tiny does not implement this method").length,
        errorBody "501" "Not Implemented" "Tiny does not implement this method"] ∧
      leadsWith "HTTP/1.0 501 Not Implemented\r\n".data
        (errorHeader "501" "Not Implemented"
          (errorBody "501" "Not Implemented" "Tiny does not implement this method").length).data
        = true ∧
      hasSub "Content-Type: text/html\r\n".data
        (errorHeader "501" "Not Implemented"
          (errorBody "501" "Not Implemented" "Tiny does not implement this method").length).data
        = true ∧
      hasSub ("Content-Length: " ++ toString
          (errorBody "501" "Not Implemented" "Tiny does not implement this method").length
            ++ "\r\n\r\n").data
        (errorHeader "501" "Not Implemented"
          (errorBody "501" "Not Implemented" "Tiny does not implement this method").length).data
        = true ∧
      hasSub "<h1>501: Not Implemented</h1>".data
        (errorBody "501" "Not Implemented" "Tiny does not implement this method").data = true ∧
      hasSub "<p>Tiny does not implement this method</p>".data
        (errorBody "501" "Not Implemented" "Tiny does not implement this method").data = true ∧
      (request e).originOpened = false ∧ (request e).originWrites = [] ∧
      (request e).relayed = [] := by
  rw [request_non_get e h1 h2 h3 h4, h5]
  set_option maxRecDepth 8192 in decide

set_option maxRecDepth 8192 in
/-- Witness for C4 at a concrete POST connection. -/
theorem non_get_sends_501_witness :
    (request envC4).clientWrites =
      [errorHeader "501" "Not Implemented"
          (errorBody "501" "Not Implemented" "Tiny does not implement this method").length,
        errorBody "501" "Not Implemented" "Tiny does not implement this method"] ∧
      leadsWith "HTTP/1.0 501 Not Implemented\r\n".data
        (errorHeader "501" "Not Implemented"
          (errorBody "501" "Not Implemented" "Tiny does not implement this method").length).data
        = true ∧
      hasSub "Content-Type: text/html\r\n".data
        (errorHeader "501" "Not Implemented"
          (errorBody "501" "Not Implemented" "Tiny does not implement this method").length).data
        = true ∧
      hasSub ("Content-Length: " ++ toString
          (errorBody "501" "Not Implemented" "Tiny does not implement this method").length
            ++ "\r\n\r\n").data
        (errorHeader "501" "Not Implemented"
          (errorBody "501" "Not Implemented" "Tiny does not implement this method").length).data
        = true ∧
      hasSub "<h1>501: Not Implemented</h1>".data
        (errorBody "501" "Not Implemented" "Tiny does not implement this method").data = true ∧
      hasSub "<p>Tiny does not implement this method</p>".data
        (errorBody "501" "Not Implemented" "Tiny does not implement this method").data = true ∧
      (request envC4).originOpened = false ∧ (request envC4).originWrites = [] ∧
      (request envC4).relayed = [] :=
  non_get_sends_501 envC4 rfl rfl rfl (by decide) rfl

/-- C5: for every successfully handled GET request, the response relay writes
to the client exactly the chunks it read from the origin, in order, with no
byte added, dropped or reordered; when every client write succeeds the
delivered sequence equals the read sequence, and when the write of chunk
k + 1 fails the loop stops having delivered exactly the first k chunks. -/
theorem response_relay_identity (e : Env) (h1 : e.firstReadOk = true)
    (h2 : e.parsedRequest = true) (h3 : e.retrieveOk = true) (h4 : e.method = "GET")
    (h5 : e.connectOk = true) (h6 : e.owOk = [])
    (h7 : ¬ MAXLINE ≤ ("GET " ++ (processUri e.uri.data).2.2.asString ++ " HTTP/1.0\r\n").length)
    (h8 : ¬ MAXLINE ≤ ("Host: " ++ (processUri e.uri.data).1.asString ++ ":" ++
      (processUri e.uri.data).2.1.asString ++ "\r\n").length)
    (h9 : ∀ c ∈ e.originChunks, c ≠ [] ∧ c.length ≤ MAXLINE) :
    (e.cwOk = [] → (request e).relayed = e.originChunks) ∧
      ∀ k : Nat, e.cwOk = List.replicate k true ++ [false] →
        (request e).relayed = e.originChunks.take k := by
  have hr := request_success e h1 h2 h3 h4 h5 h6 h7 h8
  constructor
  · intro hcw
    rw [hr]
    show (relay e.originChunks e.cwOk).1 = e.originChunks
    rw [hcw, relay_all]
  · intro k hk
    rw [hr]
    show (relay e.originChunks e.cwOk).1 = e.originChunks.take k
    rw [hk, relay_stop]

/-- Witness for C5 at a concrete connection with two response chunks. -/
theorem response_relay_identity_witness :
    (request envC5).relayed = [[1], [2, 3]] :=
  (response_relay_identity envC5 rfl rfl rfl rfl rfl rfl
    (by decide) (by decide) (by decide)).1 rfl

set_option maxRecDepth 8192 in
/-- C6 counterexample: on a GET request for http://h, whose decomposed path is
empty, the synthesized request line written to the origin is GET followed by
two spaces and HTTP/1.0, not the claimed line with a slash substituted for
the empty path. -/
theorem request_line_empty_path_cex :
    (request envC6).originWrites.head? = some "GET  HTTP/1.0\r\n" ∧
      ¬ (request envC6).originWrites.head? = some "GET / HTTP/1.0\r\n" :=
  ⟨by decide, by decide⟩

/-- C6 corrected: for every GET request that reaches the request-forwarding
step, the handler writes to the origin the synthesized request line GET
followed by the decomposed path used verbatim, possibly empty, then HTTP/1.0;
when the formatted line would not fit in the MAXLINE buffer the handler
aborts the connection after sending the line truncated to MAXLINE minus one
characters when that write succeeds, and when the write fails the handler
aborts the connection having sent nothing. -/
theorem request_line_path_verbatim (e : Env) (h1 : e.firstReadOk = true)
    (h2 : e.parsedRequest = true) (h3 : e.retrieveOk = true) (h4 : e.method = "GET")
    (h5 : e.connectOk = true) :
    ((doWrite e.owOk).1 = true →
      ¬ MAXLINE ≤ ("GET " ++ (processUri e.uri.data).2.2.asString ++ " HTTP/1.0\r\n").length →
      (request e).originWrites.head? =
        some ("GET " ++ (processUri e.uri.data).2.2.asString ++ " HTTP/1.0\r\n")) ∧
    (MAXLINE ≤ ("GET " ++ (processUri e.uri.data).2.2.asString ++ " HTTP/1.0\r\n").length →
      (request e).originClosed = true ∧ (request e).parserFreed = true ∧
        (request e).relayed = [] ∧ (request e).clientWrites = [] ∧
        (request e).originWrites = if (doWrite e.owOk).1 then
          [("GET " ++ (processUri e.uri.data).2.2.asString ++ " HTTP/1.0\r\n").take (MAXLINE - 1)]
          else []) ∧
    ((doWrite e.owOk).1 = false →
      (request e).originClosed = true ∧ (request e).parserFreed = true ∧
        (request e).relayed = [] ∧ (request e).originWrites = []) := by
  have hc := request_connected e h1 h2 h3 h4 h5
  refine ⟨?_, ?_, ?_⟩
  · intro hw hlen
    rw [hc]
    exact handleConnected_head _ _ _ _ _ _ _ hw hlen
  · intro hov
    rw [hc, handleConnected_overflow _ _ _ _ _ _ _ hov]
    exact ⟨rfl, rfl, rfl, rfl, rfl⟩
  · intro hwf
    rw [hc, handleConnected_wfail _ _ _ _ _ _ _ hwf]
    exact ⟨rfl, rfl, rfl, rfl⟩

set_option maxRecDepth 8192 in
/-- Witness for the corrected C6 statement at a concrete connection with an
explicit port and path. -/
theorem request_line_path_verbatim_witness :
    (request envC6w).originWrites.head? = some "GET /z HTTP/1.0\r\n" :=
  ((request_line_path_verbatim envC6w rfl rfl rfl rfl rfl).1 rfl (by decide)).trans
    (by decide)

/-- C7: on every exit path of the connection handler taken after the origin
connection is successfully opened, including every early-return error path,
the origin socket is closed and the parser is freed before the handler
returns. -/
theorem cleanup_after_origin_open (e : Env) (h : (request e).originOpened = true) :
    (request e).originClosed = true ∧ (request e).parserFreed = true := by
  rcases request_cases e with hc | hc
  · rw [hc] at h
    exact Bool.noConfusion h
  · rw [hc]
    exact handleConnected_closes _ _ _ _ _ _ _

set_option maxRecDepth 8192 in
/-- Witness for C7 at a concrete connection that opens the origin socket. -/
theorem cleanup_after_origin_open_witness :
    (request envC7).originClosed = true ∧ (request envC7).parserFreed = true :=
  cleanup_after_origin_open envC7 (by decide)

/-- C8: for every connection on which the initial read returns no data, or
the first line does not parse as a well-formed request line, the handler
returns without writing any bytes to the client and without opening any
origin connection. -/
theorem silent_abort_no_output (e : Env)
    (h : e.firstReadOk = false ∨ e.parsedRequest = false) :
    (request e).clientWrites = [] ∧ (request e).relayed = [] ∧
      (request e).originOpened = false ∧ (request e).originWrites = [] := by
  have hreq : request e = ⟨false, false, true, [], [], []⟩ := by
    unfold request
    rcases h with h | h
    · rw [if_pos h]
    · by_cases h1 : e.firstReadOk = false
      · rw [if_pos h1]
      · rw [if_neg h1, if_pos h]
  rw [hreq]
  exact ⟨rfl, rfl, rfl, rfl⟩

/-- Witness for C8 at a connection whose first read returns no data. -/
theorem silent_abort_no_output_witness :
    (request envC8).clientWrites = [] ∧ (request envC8).relayed = [] ∧
      (request envC8).originOpened = false ∧ (request envC8).originWrites = [] :=
  silent_abort_no_output envC8 (Or.inl rfl)

/-- C10: for every URI of the form http://host: or http://host:/path, where a
colon follows the host but no port characters precede the next slash, space or
end of string, processUri returns the empty string as the port, not the
default 80; the 80 default applies only when the colon itself is absent. -/
theorem explicit_colon_empty_port (h q : List Char)
    (hh : ∀ c ∈ h, isHostDelim c = false) :
    processUri ("http://".data ++ (h ++ [':'])) = (h, [], []) ∧
      processUri ("http://".data ++ (h ++ ':' :: '/' :: q)) = (h, [], '/' :: q) := by
  have hh' : ∀ c ∈ h, (!isHostDelim c) = true := fun c hc => by simp [hh c hc]
  constructor
  · rw [processUri_eq_spec]
    have e1 : specHost (h ++ [':']) = h := by
      simp only [specHost]
      rw [takeWhile_append_all _ _ hh']
      simp [show List.takeWhile (fun c => !isHostDelim c) [':'] = [] from by decide]
    have e2 : specAfterHost (h ++ [':']) = [':'] := by
      simp only [specAfterHost]
      rw [dropWhile_append_all _ _ hh']
      decide
    simp [specPort, specPath, e1, e2]
  · rw [processUri_eq_spec]
    have f1 : specHost (h ++ ':' :: '/' :: q) = h := by
      simp only [specHost]
      rw [takeWhile_append_all _ _ hh']
      have : List.takeWhile (fun c => !isHostDelim c) (':' :: '/' :: q) = [] := by
        simp [isHostDelim]
      simp [this]
    have f2 : specAfterHost (h ++ ':' :: '/' :: q) = ':' :: '/' :: q := by
      simp only [specAfterHost]
      rw [dropWhile_append_all _ _ hh']
      simp [isHostDelim]
    have f3 : List.takeWhile (fun c => !isPortDelim c) ('/' :: q) = [] := by
      simp [isPortDelim]
    have f4 : List.dropWhile (fun c => !isPortDelim c) ('/' :: q) = '/' :: q := by
      simp [isPortDelim]
    simp [specPort, specPath, f1, f2, f3, f4]

/-- Witness for C10 at concrete URIs. -/
theorem explicit_colon_empty_port_witness :
    processUri ("http://".data ++ ("h".data ++ [':'])) = ("h".data, [], []) ∧
      processUri ("http://".data ++ ("h".data ++ ':' :: '/' :: "pq".data)) =
        ("h".data, [], '/' :: "pq".data) :=
  explicit_colon_empty_port "h".data "pq".data (by decide)

end Proxy
